import Mathlib

/-!
# tasmota-plug-exporter: the status model, the device client and the collector

A shallow embedding of `tasmota/client.go`, `collector/collector.go` and
`getTargets` of `main.go`.

Modelling conventions.

* A Go `float64` is represented by the rational number it denotes.  The
  collector performs no floating-point arithmetic: it copies decoded values
  and converts integers with `float64(...)`, which is `float64OfInt` below
  (round to nearest, ties to even, 53 significant bits).
* A Go `string` is a sequence of bytes (`GoString`), which need not be valid
  UTF-8: the addresses of `TASMOTA_TARGETS`, URLs, response bodies, log lines
  and label values are such strings.  Texts that are valid UTF-8 by
  construction are Lean strings, embedded by `utf8`: the literals of the
  program, the error texts, and the strings of a decoded status
  (`encoding/json` replaces invalid UTF-8 by U+FFFD when it decodes a string).
* A Go `(*Status, error)` result is a pair of options, `none` standing for
  `nil`.
* A panic is the `error` of `Except`; what a call did before it panicked is
  not recorded.
* Effects are recorded as a trace of events: the call of `FetchStatus`, the
  line written with `log.Printf`, and every value sent on the channel `ch`.
* The goroutines of `Collect` interleave their sends; the order is chosen by
  a schedule, over which the theorems quantify.
* What the standard library and the network do (building a request, the HTTP
  round trip, decoding JSON) is a parameter, carried by `Client`.
-/

set_option linter.dupNamespace false

namespace Go

/-- A Go `float64`, represented by the rational number it denotes. -/
abbrev Float64 := ℚ

/-- The conversion `float64(i)` of a Go integer: exact up to 53 significant
bits, otherwise rounded to the nearest representable value, ties to even. -/
def float64OfInt (i : Int) : Float64 :=
  let n := i.natAbs
  if n < 2 ^ 53 then (i : ℚ)
  else
    let e := Nat.log2 n - 52
    let q := n / 2 ^ e
    let r := n % 2 ^ e
    let half := 2 ^ (e - 1)
    let m := if half < r ∨ (r = half ∧ q % 2 = 1) then q + 1 else q
    ((i.sign * ((m * 2 ^ e : Nat) : Int) : Int) : ℚ)

/-- A byte. -/
abbrev Byte := Fin 256

/-- A Go `string`: a sequence of bytes, not necessarily valid UTF-8. -/
abbrev GoString := List Byte

/-- The byte with the given value (modulo 256). -/
def byte (n : Nat) : Byte := ⟨n % 256, Nat.mod_lt _ (by decide)⟩

/-- The UTF-8 encoding of the code point `n`. -/
def encodeRune (n : Nat) : GoString :=
  if n < 0x80 then [byte n]
  else if n < 0x800 then [byte (0xC0 + n / 64), byte (0x80 + n % 64)]
  else if n < 0x10000 then
    [byte (0xE0 + n / 4096), byte (0x80 + n / 64 % 64), byte (0x80 + n % 64)]
  else
    [byte (0xF0 + n / 262144), byte (0x80 + n / 4096 % 64), byte (0x80 + n / 64 % 64),
      byte (0x80 + n % 64)]

/-- The bytes of a text: its UTF-8 encoding, as for a Go string literal. -/
def utf8 (s : String) : GoString :=
  s.data.flatMap fun c => encodeRune c.toNat

/-- A continuation byte, 80..BF. -/
def isCont (b : Byte) : Bool := 0x80 ≤ b.val && b.val ≤ 0xBF

/-- The function `utf8.ValidString`: the bytes are a sequence of well-formed
UTF-8 encodings (no overlong form, no surrogate, nothing above U+10FFFF). -/
def ValidString : GoString → Bool
  | [] => true
  | b0 :: s =>
    if b0.val < 0x80 then ValidString s
    else
      match s with
      | [] => false
      | b1 :: s1 =>
        if 0xC2 ≤ b0.val ∧ b0.val ≤ 0xDF then isCont b1 && ValidString s1
        else
          match s1 with
          | [] => false
          | b2 :: s2 =>
            if 0xE0 ≤ b0.val ∧ b0.val ≤ 0xEF then
              (if b0.val = 0xE0 then 0xA0 ≤ b1.val && b1.val ≤ 0xBF
                else if b0.val = 0xED then 0x80 ≤ b1.val && b1.val ≤ 0x9F
                else isCont b1)
                && isCont b2 && ValidString s2
            else
              match s2 with
              | [] => false
              | b3 :: s3 =>
                if 0xF0 ≤ b0.val ∧ b0.val ≤ 0xF4 then
                  (if b0.val = 0xF0 then 0x90 ≤ b1.val && b1.val ≤ 0xBF
                    else if b0.val = 0xF4 then 0x80 ≤ b1.val && b1.val ≤ 0x8F
                    else isCont b1)
                    && isCont b2 && isCont b3 && ValidString s3
                else false

/-- The code points that `unicode.IsSpace` accepts, which `strings.TrimSpace`
removes. -/
def spaceRunes : List Nat :=
  [0x09, 0x0A, 0x0B, 0x0C, 0x0D, 0x20, 0x85, 0xA0, 0x1680, 0x2000, 0x2001, 0x2002, 0x2003,
    0x2004, 0x2005, 0x2006, 0x2007, 0x2008, 0x2009, 0x200A, 0x2028, 0x2029, 0x202F, 0x205F,
    0x3000]

/-- Removes from the front of `s`, at most `fuel` times, one of the given byte
sequences. -/
def dropLeading (sequences : List GoString) : Nat → GoString → GoString
  | 0, s => s
  | fuel + 1, s =>
    match sequences.find? fun e => e.isPrefixOf s with
    | some e => dropLeading sequences fuel (s.drop e.length)
    | none => s

/-- The function `strings.TrimSpace`: the string without the white-space code
points at its start and at its end.  A string starts (ends) with a white-space
code point exactly when it starts (ends) with the encoding of one. -/
def TrimSpace (s : GoString) : GoString :=
  let left := dropLeading (spaceRunes.map encodeRune) s.length s
  (dropLeading (spaceRunes.map fun r => (encodeRune r).reverse) left.length left.reverse).reverse

/-- The function `strings.Split(s, ",")`: the fields between the commas, `acc`
holding the field being read (reversed). -/
def splitComma : GoString → GoString → List GoString
  | [], acc => [acc.reverse]
  | c :: cs, acc => if c = 0x2C then acc.reverse :: splitComma cs [] else splitComma cs (c :: acc)

end Go

namespace tasmota

open Go

/-- DeviceStatus contains basic device information.  The strings of a status
come out of the JSON decoder and are valid UTF-8 texts. -/
structure DeviceStatus where
  DeviceName : String
  FriendlyName : List String
  Power : String
  deriving DecidableEq, Repr

/-- EnergyStatus contains power and energy metrics. -/
structure EnergyStatus where
  Total : Float64
  Yesterday : Float64
  Today : Float64
  Power : Float64
  ApparentPower : Float64
  ReactivePower : Float64
  Factor : Float64
  Voltage : Float64
  Current : Float64
  deriving DecidableEq, Repr

/-- SensorStatus contains sensor readings including energy data. -/
structure SensorStatus where
  Time : String
  Energy : EnergyStatus
  deriving DecidableEq, Repr

/-- WifiStatus contains WiFi connection information. -/
structure WifiStatus where
  RSSI : Int
  Signal : Int
  deriving DecidableEq, Repr

/-- StateStatus contains device state information. -/
structure StateStatus where
  Uptime : String
  UptimeSec : Int
  Power : String
  Wifi : WifiStatus
  deriving DecidableEq, Repr

/-- Status represents the full Tasmota status response from Status 0. -/
structure Status where
  Status : DeviceStatus
  StatusSNS : SensorStatus
  StatusSTS : StateStatus
  deriving DecidableEq, Repr

/-- An HTTP request as built by `http.NewRequestWithContext`. -/
structure Request where
  Method : String
  URL : GoString
  deriving DecidableEq, Repr

/-- An HTTP response: the fields `FetchStatus` reads. -/
structure Response where
  StatusCode : Int
  Body : GoString
  deriving DecidableEq, Repr

/-- Client is an HTTP client for Tasmota devices, together with the behaviour
of what it calls: `NewRequestWithContext` (fails on a malformed URL), the round
trip `httpClient.Do` (fails on a transport error or when the timeout expires;
`call` numbers the fetches of a cycle, so that two requests to one address may
be answered differently) and `Decode` of `encoding/json`. -/
structure Client where
  Timeout : Int
  NewRequestWithContext : String → GoString → Except String Request
  Do : Nat → Request → Except String Response
  Decode : GoString → Except String Status

/-- The URL `fmt.Sprintf("http://%s/cm?cmnd=Status%%200", address)`. -/
def statusURL (address : GoString) : GoString :=
  utf8 "http://" ++ address ++ utf8 "/cm?cmnd=Status%200"

/-- FetchStatus retrieves the full status from a Tasmota device. -/
def Client.FetchStatus (c : Client) (call : Nat) (address : GoString) :
    Option Status × Option String :=
  let url := statusURL address
  match c.NewRequestWithContext "GET" url with
  | .error err => (none, some ("creating request: " ++ err))
  | .ok req =>
    match c.Do call req with
    | .error err => (none, some ("fetching status: " ++ err))
    | .ok resp =>
      if resp.StatusCode ≠ 200 then
        (none, some ("unexpected status code: " ++ toString resp.StatusCode))
      else
        match c.Decode resp.Body with
        | .error err => (none, some ("decoding response: " ++ err))
        | .ok status => (some status, none)

/-- DeviceName returns the device name, preferring FriendlyName if available. -/
def Status.DeviceName (s : tasmota.Status) : String :=
  match s.Status.FriendlyName with
  | first :: _ => if first ≠ "" then first else s.Status.DeviceName
  | [] => s.Status.DeviceName

/-- The first non-empty entry of a friendly-name list, as the specification
words the display name. -/
def specFirstNonEmpty (names : List String) : Option String :=
  names.find? fun name => name ≠ ""

/-- A status whose first friendly name is empty and whose second is not. -/
def kitchenStatus : tasmota.Status :=
  { Status := { DeviceName := "Tasmota", FriendlyName := ["", "Kitchen"], Power := "1" }
    StatusSNS :=
      { Time := ""
        Energy :=
          { Total := 0, Yesterday := 0, Today := 0, Power := 0, ApparentPower := 0
            ReactivePower := 0, Factor := 0, Voltage := 0, Current := 0 } }
    StatusSTS := { Uptime := "", UptimeSec := 0, Power := "ON", Wifi := { RSSI := 0, Signal := 0 } } }

/-- RelayState returns 1 if the relay is on, 0 if off. -/
def Status.RelayState (s : tasmota.Status) : Float64 :=
  if s.StatusSTS.Power = "ON" ∨ s.Status.Power = "1" then 1 else 0

end tasmota

namespace prometheus

open Go

/-- The function `prometheus.BuildFQName`: the non-empty parts joined by an
underscore; an empty name gives the empty string. -/
def BuildFQName (namespace_ subsystem name : String) : String :=
  if name = "" then ""
  else if namespace_ ≠ "" ∧ subsystem ≠ "" then namespace_ ++ "_" ++ subsystem ++ "_" ++ name
  else if namespace_ ≠ "" then namespace_ ++ "_" ++ name
  else if subsystem ≠ "" then subsystem ++ "_" ++ name
  else name

/-- A metric descriptor `prometheus.Desc`: fully qualified name, help text and
the names of the variable labels (no constant labels are used). -/
structure Desc where
  fqName : String
  help : String
  variableLabels : List String
  deriving DecidableEq, Repr

/-- The function `prometheus.NewDesc`, called with `nil` constant labels. -/
def NewDesc (fqName help : String) (variableLabels : List String) : Desc :=
  { fqName := fqName, help := help, variableLabels := variableLabels }

/-- The metric kinds of `prometheus.ValueType`. -/
inductive ValueType
  | CounterValue
  | GaugeValue
  | UntypedValue
  deriving DecidableEq, Repr

/-- A constant metric: one sample, as sent on the channel of `Collect`. -/
structure Metric where
  desc : Desc
  valueType : ValueType
  value : Float64
  labelValues : List GoString
  deriving DecidableEq, Repr

/-- The function `prometheus.MustNewConstMetric`: it panics (here: `error`)
when the number of label values differs from the number of variable labels of
the descriptor, and when a label value is not valid UTF-8. -/
def MustNewConstMetric (desc : Desc) (valueType : ValueType) (value : Float64)
    (labelValues : List GoString) : Except String Metric :=
  if labelValues.length ≠ desc.variableLabels.length then
    .error ("inconsistent label cardinality in " ++ desc.fqName)
  else if labelValues.all ValidString then
    .ok { desc := desc, valueType := valueType, value := value, labelValues := labelValues }
  else
    .error "label value is not valid UTF-8"

end prometheus

namespace collector

open Go tasmota prometheus

/-- The constant `namespace` of the collector package. -/
def namespace_ : String := "tasmota"

/-- What a call does to the outside: it calls `FetchStatus` for an address,
writes a line to the log, or sends on its channel. -/
inductive Event
  | fetch (address : GoString)
  | log (line : GoString)
  | metric (m : Metric)
  | desc (d : Desc)
  deriving DecidableEq, Repr

/-- Collector implements prometheus.Collector for Tasmota devices. -/
structure Collector where
  client : Client
  targets : List GoString
  timeout : Int
  up : Desc
  powerWatts : Desc
  voltageVolts : Desc
  currentAmps : Desc
  energyTotalKwh : Desc
  energyTodayKwh : Desc
  energyYestKwh : Desc
  powerFactor : Desc
  apparentPower : Desc
  reactivePower : Desc
  relayState : Desc
  uptimeSeconds : Desc
  wifiRSSI : Desc
  wifiSignalDBm : Desc

/-- New creates a new Collector. -/
def New (client : Client) (targets : List GoString) (timeout : Int) : Collector :=
  let labels := ["address", "device"]
  { client := client
    targets := targets
    timeout := timeout
    up := NewDesc (BuildFQName namespace_ "" "up")
      "Whether the Tasmota device is reachable" ["address"]
    powerWatts := NewDesc (BuildFQName namespace_ "" "power_watts")
      "Current power consumption in watts" labels
    voltageVolts := NewDesc (BuildFQName namespace_ "" "voltage_volts")
      "Current voltage in volts" labels
    currentAmps := NewDesc (BuildFQName namespace_ "" "current_amps")
      "Current in amperes" labels
    energyTotalKwh := NewDesc (BuildFQName namespace_ "" "energy_total_kwh")
      "Total energy consumed in kWh" labels
    energyTodayKwh := NewDesc (BuildFQName namespace_ "" "energy_today_kwh")
      "Energy consumed today in kWh" labels
    energyYestKwh := NewDesc (BuildFQName namespace_ "" "energy_yesterday_kwh")
      "Energy consumed yesterday in kWh" labels
    powerFactor := NewDesc (BuildFQName namespace_ "" "power_factor")
      "Power factor (0-1)" labels
    apparentPower := NewDesc (BuildFQName namespace_ "" "apparent_power_va")
      "Apparent power in VA" labels
    reactivePower := NewDesc (BuildFQName namespace_ "" "reactive_power_var")
      "Reactive power in VAR" labels
    relayState := NewDesc (BuildFQName namespace_ "" "relay_state")
      "Relay state (1=on, 0=off)" labels
    uptimeSeconds := NewDesc (BuildFQName namespace_ "" "uptime_seconds")
      "Device uptime in seconds" labels
    wifiRSSI := NewDesc (BuildFQName namespace_ "" "wifi_rssi_percent")
      "WiFi RSSI as percentage" labels
    wifiSignalDBm := NewDesc (BuildFQName namespace_ "" "wifi_signal_dbm")
      "WiFi signal strength in dBm" labels }

/-- Describe implements prometheus.Collector: the descriptors sent on `ch`, in order. -/
def Collector.Describe (c : Collector) : List Event :=
  [ .desc c.up
  , .desc c.powerWatts
  , .desc c.voltageVolts
  , .desc c.currentAmps
  , .desc c.energyTotalKwh
  , .desc c.energyTodayKwh
  , .desc c.energyYestKwh
  , .desc c.powerFactor
  , .desc c.apparentPower
  , .desc c.reactivePower
  , .desc c.relayState
  , .desc c.uptimeSeconds
  , .desc c.wifiRSSI
  , .desc c.wifiSignalDBm ]

/-- The body of one goroutine of `Collect`: the trace of `collectTarget` for the
fetch numbered `call`, or `error` when it panics. -/
def Collector.collectTarget (c : Collector) (call : Nat) (address : GoString) :
    Except String (List Event) :=
  match c.client.FetchStatus call address with
  | (_, some err) => do
    let m0 ← MustNewConstMetric c.up .GaugeValue 0 [address]
    pure [ .fetch address
         , .log (utf8 "Error fetching status from " ++ address ++ utf8 (": " ++ err))
         , .metric m0 ]
  | (none, none) => .error "invalid memory address or nil pointer dereference"
  | (some status, none) => do
    let m0 ← MustNewConstMetric c.up .GaugeValue 1 [address]
    let device := utf8 status.DeviceName
    let energy := status.StatusSNS.Energy
    let m1 ← MustNewConstMetric c.powerWatts .GaugeValue energy.Power [address, device]
    let m2 ← MustNewConstMetric c.voltageVolts .GaugeValue energy.Voltage [address, device]
    let m3 ← MustNewConstMetric c.currentAmps .GaugeValue energy.Current [address, device]
    let m4 ← MustNewConstMetric c.energyTotalKwh .CounterValue energy.Total [address, device]
    let m5 ← MustNewConstMetric c.energyTodayKwh .GaugeValue energy.Today [address, device]
    let m6 ← MustNewConstMetric c.energyYestKwh .GaugeValue energy.Yesterday [address, device]
    let m7 ← MustNewConstMetric c.powerFactor .GaugeValue energy.Factor [address, device]
    let m8 ← MustNewConstMetric c.apparentPower .GaugeValue energy.ApparentPower [address, device]
    let m9 ← MustNewConstMetric c.reactivePower .GaugeValue energy.ReactivePower [address, device]
    let m10 ← MustNewConstMetric c.relayState .GaugeValue status.RelayState [address, device]
    let m11 ← MustNewConstMetric c.uptimeSeconds .GaugeValue
      (float64OfInt status.StatusSTS.UptimeSec) [address, device]
    let m12 ← MustNewConstMetric c.wifiRSSI .GaugeValue
      (float64OfInt status.StatusSTS.Wifi.RSSI) [address, device]
    let m13 ← MustNewConstMetric c.wifiSignalDBm .GaugeValue
      (float64OfInt status.StatusSTS.Wifi.Signal) [address, device]
    pure [ .fetch address, .metric m0, .metric m1, .metric m2, .metric m3, .metric m4
         , .metric m5, .metric m6, .metric m7, .metric m8, .metric m9, .metric m10
         , .metric m11, .metric m12, .metric m13 ]

/-- The loop of `Collect` that starts one goroutine per target: the traces of
the goroutines, in the order of the targets, numbered from `call`. -/
def Collector.spawn (c : Collector) : Nat → List GoString → Except String (List (List Event))
  | _, [] => .ok []
  | call, target :: rest => do
    let g ← c.collectTarget call target
    let gs ← c.spawn (call + 1) rest
    pure (g :: gs)

/-- One step of the scheduler: the goroutine with index `k` among those that
still have something to do performs its next event. -/
def advance {α : Type} : Nat → List (List α) → Option (α × List (List α))
  | _, [] => none
  | k, [] :: gs => (advance k gs).map fun r => (r.1, [] :: r.2)
  | 0, (e :: g) :: gs => some (e, g :: gs)
  | k + 1, (e :: g) :: gs => (advance k gs).map fun r => (r.1, (e :: g) :: r.2)

/-- The events of concurrently running goroutines in the order fixed by the
schedule; when the schedule is used up or names no running goroutine, the
remaining goroutines finish one after the other. -/
def interleave {α : Type} : List Nat → List (List α) → List α
  | [], gs => gs.flatten
  | k :: schedule, gs =>
    match advance k gs with
    | none => gs.flatten
    | some (e, gs') => e :: interleave schedule gs'

/-- The orders in which concurrently running goroutines can perform their
events: each step takes the next event of one of them. -/
inductive Interleaving {α : Type} : List (List α) → List α → Prop
  | done (gs : List (List α)) : (∀ g ∈ gs, g = []) → Interleaving gs []
  | step (before : List (List α)) (g : List α) (after : List (List α)) (e : α) (out : List α) :
      Interleaving (before ++ g :: after) out →
      Interleaving (before ++ (e :: g) :: after) (e :: out)

/-- The number of goroutines in the list that still have something to do. -/
def running {α : Type} : List (List α) → Nat
  | [] => 0
  | [] :: gs => running gs
  | (_ :: _) :: gs => running gs + 1

/-- Collect implements prometheus.Collector: it starts one goroutine per target
and returns when all have finished (`wg.Wait`); the result is the trace of
the whole call under the given schedule. -/
def Collector.Collect (c : Collector) (schedule : List Nat) : Except String (List Event) := do
  let gs ← c.spawn 0 c.targets
  pure (interleave schedule gs)

/-- The samples sent on the channel in a trace, in order. -/
def samples (trace : List Event) : List Metric :=
  trace.filterMap fun e => match e with
    | .metric m => some m
    | _ => none

/-- The descriptors sent on the channel in a trace, in order. -/
def descriptors (trace : List Event) : List Desc :=
  trace.filterMap fun e => match e with
    | .desc d => some d
    | _ => none

/-- The addresses for which a trace calls `FetchStatus`, in order. -/
def fetches (trace : List Event) : List GoString :=
  trace.filterMap fun e => match e with
    | .fetch a => some a
    | _ => none

/-- What identifies a time series: the descriptor and the label values. -/
def seriesKey (m : Metric) : Desc × List GoString := (m.desc, m.labelValues)

/-- The metric kinds of the registry table of the specification, by metric
name: `energy_total_kwh` is a counter, the thirteen others are gauges. -/
def specRegistryKind (fqName : String) : Option ValueType :=
  if fqName = "tasmota_energy_total_kwh" then some .CounterValue
  else if fqName ∈ ["tasmota_up", "tasmota_power_watts", "tasmota_voltage_volts",
      "tasmota_current_amps", "tasmota_energy_today_kwh", "tasmota_energy_yesterday_kwh",
      "tasmota_power_factor", "tasmota_apparent_power_va", "tasmota_reactive_power_var",
      "tasmota_relay_state", "tasmota_uptime_seconds", "tasmota_wifi_rssi_percent",
      "tasmota_wifi_signal_dbm"] then some .GaugeValue
  else none

end collector

namespace collector

open Go tasmota prometheus

/-- The trace of a goroutine whose fetch returned the error `err`, when no call
panics. -/
def traceDown (c : Collector) (address : GoString) (err : String) : List Event :=
  [ .fetch address
  , .log (utf8 "Error fetching status from " ++ address ++ utf8 (": " ++ err))
  , .metric ⟨c.up, .GaugeValue, 0, [address]⟩ ]

/-- The trace of a goroutine whose fetch returned the status `st`, when no call
panics. -/
def traceUp (c : Collector) (address : GoString) (st : Status) : List Event :=
  [ .fetch address
  , .metric ⟨c.up, .GaugeValue, 1, [address]⟩
  , .metric ⟨c.powerWatts, .GaugeValue, st.StatusSNS.Energy.Power, [address, utf8 st.DeviceName]⟩
  , .metric ⟨c.voltageVolts, .GaugeValue, st.StatusSNS.Energy.Voltage, [address, utf8 st.DeviceName]⟩
  , .metric ⟨c.currentAmps, .GaugeValue, st.StatusSNS.Energy.Current, [address, utf8 st.DeviceName]⟩
  , .metric ⟨c.energyTotalKwh, .CounterValue, st.StatusSNS.Energy.Total, [address, utf8 st.DeviceName]⟩
  , .metric ⟨c.energyTodayKwh, .GaugeValue, st.StatusSNS.Energy.Today, [address, utf8 st.DeviceName]⟩
  , .metric ⟨c.energyYestKwh, .GaugeValue, st.StatusSNS.Energy.Yesterday, [address, utf8 st.DeviceName]⟩
  , .metric ⟨c.powerFactor, .GaugeValue, st.StatusSNS.Energy.Factor, [address, utf8 st.DeviceName]⟩
  , .metric ⟨c.apparentPower, .GaugeValue, st.StatusSNS.Energy.ApparentPower,
      [address, utf8 st.DeviceName]⟩
  , .metric ⟨c.reactivePower, .GaugeValue, st.StatusSNS.Energy.ReactivePower,
      [address, utf8 st.DeviceName]⟩
  , .metric ⟨c.relayState, .GaugeValue, st.RelayState, [address, utf8 st.DeviceName]⟩
  , .metric ⟨c.uptimeSeconds, .GaugeValue, float64OfInt st.StatusSTS.UptimeSec,
      [address, utf8 st.DeviceName]⟩
  , .metric ⟨c.wifiRSSI, .GaugeValue, float64OfInt st.StatusSTS.Wifi.RSSI,
      [address, utf8 st.DeviceName]⟩
  , .metric ⟨c.wifiSignalDBm, .GaugeValue, float64OfInt st.StatusSTS.Wifi.Signal,
      [address, utf8 st.DeviceName]⟩ ]

/-- The trace of the goroutine for one target, by the result of its fetch. -/
def traceOf (c : Collector) (call : Nat) (address : GoString) : List Event :=
  match c.client.FetchStatus call address with
  | (_, some err) => traceDown c address err
  | (some st, none) => traceUp c address st
  | (none, none) => []

/-- The traces of the goroutines of the targets, numbered from `call`. -/
def tracesOf (c : Collector) : Nat → List GoString → List (List Event)
  | _, [] => []
  | call, target :: rest => traceOf c call target :: tracesOf c (call + 1) rest

/-- The number of targets, numbered from `call`, whose fetch returns a status. -/
def successCount (client : Client) : Nat → List GoString → Nat
  | _, [] => 0
  | call, target :: rest =>
    (if (client.FetchStatus call target).2 = none then 1 else 0)
      + successCount client (call + 1) rest

/-- The number of targets, numbered from `call`, whose fetch returns an error. -/
def failureCount (client : Client) : Nat → List GoString → Nat
  | _, [] => 0
  | call, target :: rest =>
    (if (client.FetchStatus call target).2 = none then 0 else 1)
      + failureCount client (call + 1) rest

/-- The status decoded from `testResponse` of the collector test: the readings
of the fixture, for any identity section and time strings. -/
def fixture (identity : DeviceStatus) (time uptime : String) : Status :=
  { Status := identity
    StatusSNS :=
      { Time := time
        Energy :=
          { Total := 100.5, Yesterday := 2.0, Today := 1.5, Power := 50, ApparentPower := 55
            ReactivePower := 15, Factor := 0.91, Voltage := 235, Current := 0.213 } }
    StatusSTS :=
      { Uptime := uptime, UptimeSec := 3600, Power := "ON", Wifi := { RSSI := 80, Signal := -60 } } }

/-- A client whose every request is answered with the given status code and
body, decoded to `testResponse` of the collector test. -/
def fixtureClient (code : Int) : Client :=
  { Timeout := 5000000000
    NewRequestWithContext := fun method url => .ok { Method := method, URL := url }
    Do := fun _ _ => .ok { StatusCode := code, Body := utf8 "testResponse" }
    Decode := fun _ =>
      .ok (fixture { DeviceName := "Tasmota", FriendlyName := ["Test Plug"], Power := "1" }
        "2026-01-07T17:25:17" "0T01:00:00") }

/-- A client whose first request of a cycle is answered as by `fixtureClient 200`
and whose other requests do not get through. -/
def mixedClient : Client :=
  { fixtureClient 200 with
    Do := fun call _ =>
      if call = 0 then .ok { StatusCode := 200, Body := utf8 "testResponse" }
      else .error "dial tcp 127.0.0.1:1: connect: connection refused" }

/-- A client none of whose requests gets through. -/
def downClient : Client :=
  { Timeout := 1000000000
    NewRequestWithContext := fun method url => .ok { Method := method, URL := url }
    Do := fun _ _ => .error "dial tcp 127.0.0.1:1: connect: connection refused"
    Decode := fun _ => .error "unexpected end of JSON input" }

end collector

namespace main

open Go

/-- The function `getTargets`, given the value of `TASMOTA_TARGETS`. -/
def getTargets (raw : GoString) : List GoString :=
  if raw = [] then []
  else
    ((splitComma raw []).map fun t => TrimSpace t).filter fun t => t ≠ []

end main


namespace Go

theorem byte_val (k : Nat) (h : k < 256) : (byte k).val = k := Nat.mod_eq_of_lt h

theorem ValidString_one (b0 : Byte) (s : GoString) (h : b0.val < 0x80) :
    ValidString (b0 :: s) = ValidString s := by
  rw [ValidString.eq_def]
  simp [h]

theorem ValidString_two (b0 b1 : Byte) (s : GoString) (h0 : 0xC2 ≤ b0.val ∧ b0.val ≤ 0xDF)
    (h1 : 0x80 ≤ b1.val ∧ b1.val ≤ 0xBF) :
    ValidString (b0 :: b1 :: s) = ValidString s := by
  have c0 : ¬ (b0.val < 0x80) := by omega
  rw [ValidString.eq_def]
  simp [c0, h0, h1, isCont]

theorem ValidString_three (b0 b1 b2 : Byte) (s : GoString)
    (h0 : 0xE0 ≤ b0.val ∧ b0.val ≤ 0xEF)
    (h1 : 0x80 ≤ b1.val ∧ b1.val ≤ 0xBF)
    (h1a : b0.val = 0xE0 → 0xA0 ≤ b1.val) (h1b : b0.val = 0xED → b1.val ≤ 0x9F)
    (h2 : 0x80 ≤ b2.val ∧ b2.val ≤ 0xBF) :
    ValidString (b0 :: b1 :: b2 :: s) = ValidString s := by
  have c0 : ¬ (b0.val < 0x80) := by omega
  have c1 : ¬ (0xC2 ≤ b0.val ∧ b0.val ≤ 0xDF) := by omega
  rw [ValidString.eq_def]
  simp only [c0, c1, h0, isCont, if_false, if_true, and_self]
  by_cases k0 : b0.val = 0xE0
  · simp [k0, h1a k0, h1, h2]
  · by_cases k1 : b0.val = 0xED
    · simp [k1, h1b k1, h1, h2]
    · simp [k0, k1, h1, h2]

theorem ValidString_four (b0 b1 b2 b3 : Byte) (s : GoString)
    (h0 : 0xF0 ≤ b0.val ∧ b0.val ≤ 0xF4)
    (h1 : 0x80 ≤ b1.val ∧ b1.val ≤ 0xBF)
    (h1a : b0.val = 0xF0 → 0x90 ≤ b1.val) (h1b : b0.val = 0xF4 → b1.val ≤ 0x8F)
    (h2 : 0x80 ≤ b2.val ∧ b2.val ≤ 0xBF) (h3 : 0x80 ≤ b3.val ∧ b3.val ≤ 0xBF) :
    ValidString (b0 :: b1 :: b2 :: b3 :: s) = ValidString s := by
  have c0 : ¬ (b0.val < 0x80) := by omega
  have c1 : ¬ (0xC2 ≤ b0.val ∧ b0.val ≤ 0xDF) := by omega
  have c2 : ¬ (0xE0 ≤ b0.val ∧ b0.val ≤ 0xEF) := by omega
  rw [ValidString.eq_def]
  simp only [c0, c1, c2, h0, isCont, if_false, if_true, and_self]
  by_cases k0 : b0.val = 0xF0
  · simp [k0, h1a k0, h1, h2, h3]
  · by_cases k1 : b0.val = 0xF4
    · simp [k1, h1b k1, h1, h2, h3]
    · simp [k0, k1, h1, h2, h3]

theorem ValidString_encodeRune_append (n : Nat) (h : n < 0xD800 ∨ (0xDFFF < n ∧ n < 0x110000))
    (s : GoString) : ValidString (encodeRune n ++ s) = ValidString s := by
  unfold encodeRune
  split
  · rename_i h1
    have e0 : (byte n).val = n := byte_val _ (by omega)
    exact ValidString_one _ _ (by omega)
  · split
    · rename_i h1 h2
      have e0 : (byte (0xC0 + n / 64)).val = 0xC0 + n / 64 := byte_val _ (by omega)
      have e1 : (byte (0x80 + n % 64)).val = 0x80 + n % 64 := byte_val _ (by omega)
      exact ValidString_two _ _ _ (by omega) (by omega)
    · split
      · rename_i h1 h2 h3
        have e0 : (byte (0xE0 + n / 4096)).val = 0xE0 + n / 4096 := byte_val _ (by omega)
        have e1 : (byte (0x80 + n / 64 % 64)).val = 0x80 + n / 64 % 64 := byte_val _ (by omega)
        have e2 : (byte (0x80 + n % 64)).val = 0x80 + n % 64 := byte_val _ (by omega)
        exact ValidString_three _ _ _ _ (by omega) (by omega) (by omega) (by omega) (by omega)
      · rename_i h1 h2 h3
        have e0 : (byte (0xF0 + n / 262144)).val = 0xF0 + n / 262144 := byte_val _ (by omega)
        have e1 : (byte (0x80 + n / 4096 % 64)).val = 0x80 + n / 4096 % 64 :=
          byte_val _ (by omega)
        have e2 : (byte (0x80 + n / 64 % 64)).val = 0x80 + n / 64 % 64 := byte_val _ (by omega)
        have e3 : (byte (0x80 + n % 64)).val = 0x80 + n % 64 := byte_val _ (by omega)
        exact ValidString_four _ _ _ _ _ (by omega) (by omega) (by omega) (by omega) (by omega)
          (by omega)

theorem Char_toNat_scalar (c : Char) :
    c.toNat < 0xD800 ∨ (0xDFFF < c.toNat ∧ c.toNat < 0x110000) := by
  have := c.valid
  simp only [Char.toNat]
  exact this

theorem ValidString_utf8_append (cs : List Char) (s : GoString) :
    ValidString ((cs.flatMap fun c => encodeRune c.toNat) ++ s) = ValidString s := by
  induction cs with
  | nil => rfl
  | cons c cs ih =>
    simp only [List.flatMap_cons, List.append_assoc]
    rw [ValidString_encodeRune_append _ (Char_toNat_scalar c), ih]

theorem ValidString_utf8 (s : String) : ValidString (utf8 s) = true := by
  have h := ValidString_utf8_append s.data []
  simp only [List.append_nil] at h
  exact h

theorem byte_eq_iff (a b : Nat) : byte a = byte b ↔ a % 256 = b % 256 := by
  simp [byte, Fin.ext_iff]

theorem encodeRune_append_inj (n1 n2 : Nat) (h1 : n1 < 0x110000) (h2 : n2 < 0x110000)
    (r1 r2 : GoString) (h : encodeRune n1 ++ r1 = encodeRune n2 ++ r2) :
    n1 = n2 ∧ r1 = r2 := by
  unfold encodeRune at h
  split at h <;> split at h <;> (try split at h) <;> (try split at h) <;> (try split at h)
    <;> (try split at h) <;>
    simp only [List.cons_append, List.nil_append, List.cons.injEq, byte_eq_iff] at h <;>
    refine ⟨by omega, ?_⟩ <;> first | exact h.2.2.2.2 | exact h.2.2.2 | exact h.2.2 | exact h.2 | omega

theorem Char_toNat_inj (c1 c2 : Char) (h : c1.toNat = c2.toNat) : c1 = c2 := by
  apply Char.ext
  apply UInt32.ext
  exact h

theorem utf8_data_inj : ∀ (cs1 cs2 : List Char),
    (cs1.flatMap fun c => encodeRune c.toNat) = (cs2.flatMap fun c => encodeRune c.toNat) →
      cs1 = cs2
  | [], [], _ => rfl
  | [], c :: cs, h => by
    simp only [List.flatMap_nil, List.flatMap_cons] at h
    unfold encodeRune at h
    split at h <;> (try split at h) <;> (try split at h) <;> simp at h
  | c :: cs, [], h => by
    simp only [List.flatMap_nil, List.flatMap_cons] at h
    unfold encodeRune at h
    split at h <;> (try split at h) <;> (try split at h) <;> simp at h
  | c1 :: cs1, c2 :: cs2, h => by
    simp only [List.flatMap_cons] at h
    have b1 : c1.toNat < 0x110000 := by have := Char_toNat_scalar c1; omega
    have b2 : c2.toNat < 0x110000 := by have := Char_toNat_scalar c2; omega
    obtain ⟨hn, hr⟩ := encodeRune_append_inj _ _ b1 b2 _ _ h
    rw [Char_toNat_inj c1 c2 hn, utf8_data_inj cs1 cs2 hr]

theorem utf8_injective : Function.Injective utf8 := by
  intro s1 s2 h
  exact String.ext (utf8_data_inj s1.data s2.data h)

end Go

namespace tasmota
open Go

theorem FetchStatus_cases (c : Client) (call : Nat) (address : GoString) :
    (∃ err, c.FetchStatus call address = (none, some err)) ∨
      (∃ st, c.FetchStatus call address = (some st, none)) := by
  unfold Client.FetchStatus
  simp only []
  split
  · exact Or.inl ⟨_, rfl⟩
  · split
    · exact Or.inl ⟨_, rfl⟩
    · split
      · exact Or.inl ⟨_, rfl⟩
      · split
        · exact Or.inl ⟨_, rfl⟩
        · exact Or.inr ⟨_, rfl⟩

end tasmota

namespace collector
open Go tasmota prometheus

theorem MustNewConstMetric_ok (desc : Desc) (valueType : ValueType) (value : Float64)
    (labelValues : List GoString) (hlen : labelValues.length = desc.variableLabels.length)
    (hvalid : labelValues.all ValidString = true) :
    MustNewConstMetric desc valueType value labelValues
      = .ok { desc := desc, valueType := valueType, value := value, labelValues := labelValues } := by
  simp [MustNewConstMetric, hlen, hvalid]

theorem MustNewConstMetric_invalid (desc : Desc) (valueType : ValueType) (value : Float64)
    (labelValues : List GoString) (hlen : labelValues.length = desc.variableLabels.length)
    (hvalid : labelValues.all ValidString = false) :
    MustNewConstMetric desc valueType value labelValues
      = .error "label value is not valid UTF-8" := by
  simp [MustNewConstMetric, hlen, hvalid]

theorem collectTarget_down (client : Client) (targets : List GoString) (timeout : Int)
    (call : Nat) (address : GoString) (err : String) (hvalid : ValidString address = true)
    (h : client.FetchStatus call address = (none, some err)) :
    (New client targets timeout).collectTarget call address
      = .ok (traceDown (New client targets timeout) address err) := by
  have h' : (New client targets timeout).client.FetchStatus call address = (none, some err) := h
  have m0 := MustNewConstMetric_ok (New client targets timeout).up .GaugeValue 0 [address] rfl
    (by simp [hvalid])
  unfold Collector.collectTarget
  rw [h']
  simp only [m0]
  rfl

theorem collectTarget_up (client : Client) (targets : List GoString) (timeout : Int)
    (call : Nat) (address : GoString) (st : Status) (hvalid : ValidString address = true)
    (h : client.FetchStatus call address = (some st, none)) :
    (New client targets timeout).collectTarget call address
      = .ok (traceUp (New client targets timeout) address st) := by
  have h' : (New client targets timeout).client.FetchStatus call address = (some st, none) := h
  have m0 := MustNewConstMetric_ok (New client targets timeout).up .GaugeValue 1 [address] rfl
    (by simp [hvalid])
  have m : ∀ (desc : Desc) (valueType : ValueType) (value : Float64),
      desc.variableLabels.length = 2 →
      MustNewConstMetric desc valueType value [address, utf8 st.DeviceName]
        = .ok { desc := desc, valueType := valueType, value := value,
                labelValues := [address, utf8 st.DeviceName] } := by
    intro desc valueType value hlen
    exact MustNewConstMetric_ok desc valueType value _ hlen.symm
      (by simp [hvalid, ValidString_utf8])
  unfold Collector.collectTarget
  rw [h']
  simp only [m0, m (New client targets timeout).powerWatts _ _ rfl,
    m (New client targets timeout).voltageVolts _ _ rfl,
    m (New client targets timeout).currentAmps _ _ rfl,
    m (New client targets timeout).energyTotalKwh _ _ rfl,
    m (New client targets timeout).energyTodayKwh _ _ rfl,
    m (New client targets timeout).energyYestKwh _ _ rfl,
    m (New client targets timeout).powerFactor _ _ rfl,
    m (New client targets timeout).apparentPower _ _ rfl,
    m (New client targets timeout).reactivePower _ _ rfl,
    m (New client targets timeout).relayState _ _ rfl,
    m (New client targets timeout).uptimeSeconds _ _ rfl,
    m (New client targets timeout).wifiRSSI _ _ rfl,
    m (New client targets timeout).wifiSignalDBm _ _ rfl]
  rfl

theorem collectTarget_invalid (client : Client) (targets : List GoString) (timeout : Int)
    (call : Nat) (address : GoString) (hinvalid : ValidString address = false) :
    (New client targets timeout).collectTarget call address
      = .error "label value is not valid UTF-8" := by
  have hc : (New client targets timeout).client = client := rfl
  have m0 : ∀ value, MustNewConstMetric (New client targets timeout).up .GaugeValue value [address]
      = .error "label value is not valid UTF-8" := fun value =>
    MustNewConstMetric_invalid _ _ _ _ rfl (by simp [hinvalid])
  unfold Collector.collectTarget
  rcases FetchStatus_cases client call address with ⟨err, h⟩ | ⟨st, h⟩
  · rw [hc, h]
    simp only [m0]
    rfl
  · rw [hc, h]
    simp only [m0]
    rfl

end collector

namespace collector
open Go tasmota prometheus

theorem advance_perm {α : Type} : ∀ (k : Nat) (gs : List (List α)) (e : α) (gs' : List (List α)),
    advance k gs = some (e, gs') → gs.flatten.Perm (e :: gs'.flatten)
  | _, [], _, _, h => by simp [advance] at h
  | k, [] :: gs, e, gs', h => by
    simp only [advance, Option.map_eq_some'] at h
    obtain ⟨r, hr, hr'⟩ := h
    cases hr'
    simpa using advance_perm k gs r.1 r.2 hr
  | 0, (x :: g) :: gs, e, gs', h => by
    simp only [advance, Option.some.injEq, Prod.mk.injEq] at h
    obtain ⟨rfl, rfl⟩ := h
    simp
  | k + 1, (x :: g) :: gs, e, gs', h => by
    simp only [advance, Option.map_eq_some'] at h
    obtain ⟨r, hr, hr'⟩ := h
    cases hr'
    have ih := advance_perm k gs r.1 r.2 hr
    simp only [List.flatten_cons]
    exact (List.Perm.append_left (x :: g) ih).trans List.perm_middle

theorem interleave_perm {α : Type} : ∀ (schedule : List Nat) (gs : List (List α)),
    (interleave schedule gs).Perm gs.flatten
  | [], gs => by simp [interleave]
  | k :: schedule, gs => by
    unfold interleave
    split
    · exact List.Perm.refl _
    · rename_i e gs' h
      exact ((interleave_perm schedule gs').cons e).trans (advance_perm k gs e gs' h).symm

theorem advance_running {α : Type} (g : List α) (after : List (List α)) (e : α) :
    ∀ before : List (List α),
      advance (running before) (before ++ (e :: g) :: after) = some (e, before ++ g :: after)
  | [] => rfl
  | [] :: before => by
    simp [running, advance, advance_running g after e before]
  | (x :: g') :: before => by
    simp [running, advance, advance_running g after e before]

theorem interleave_complete {α : Type} (gs : List (List α)) (out : List α)
    (h : Interleaving gs out) : ∃ schedule, interleave schedule gs = out := by
  induction h with
  | done gs hgs =>
    exact ⟨[], by simpa [interleave] using hgs⟩
  | step before g after e out _ ih =>
    obtain ⟨schedule, hs⟩ := ih
    exact ⟨running before :: schedule, by simp [interleave, advance_running, hs]⟩

theorem collectTarget_eq (client : Client) (targets : List GoString) (timeout : Int)
    (call : Nat) (address : GoString) (hvalid : ValidString address = true) :
    (New client targets timeout).collectTarget call address
      = .ok (traceOf (New client targets timeout) call address) := by
  have hc : (New client targets timeout).client = client := rfl
  rcases FetchStatus_cases client call address with ⟨err, h⟩ | ⟨st, h⟩
  · rw [collectTarget_down client targets timeout call address err hvalid h]
    simp only [traceOf, hc, h]
  · rw [collectTarget_up client targets timeout call address st hvalid h]
    simp only [traceOf, hc, h]

theorem spawn_eq (client : Client) (targets : List GoString) (timeout : Int) :
    ∀ (ts : List GoString) (call : Nat), (∀ a ∈ ts, ValidString a = true) →
      (New client targets timeout).spawn call ts
        = .ok (tracesOf (New client targets timeout) call ts)
  | [], _, _ => rfl
  | t :: ts, call, hvalid => by
    have ht : ValidString t = true := hvalid t (List.mem_cons_self _ _)
    have hts : ∀ a ∈ ts, ValidString a = true := fun a ha =>
      hvalid a (List.mem_cons_of_mem _ ha)
    simp only [Collector.spawn, tracesOf, collectTarget_eq client targets timeout call t ht,
      spawn_eq client targets timeout ts (call + 1) hts]
    rfl

theorem Collect_eq (client : Client) (targets : List GoString) (timeout : Int)
    (schedule : List Nat) (hvalid : ∀ a ∈ targets, ValidString a = true) :
    (New client targets timeout).Collect schedule
      = .ok (interleave schedule (tracesOf (New client targets timeout) 0 targets)) := by
  have ht : (New client targets timeout).targets = targets := rfl
  simp only [Collector.Collect, ht, spawn_eq client targets timeout targets 0 hvalid]
  rfl

theorem allValid_map_utf8 (targets : List String) :
    ∀ a ∈ targets.map utf8, ValidString a = true := by
  intro a ha
  obtain ⟨s, _, rfl⟩ := List.mem_map.1 ha
  exact ValidString_utf8 s

theorem samples_interleave_perm (schedule : List Nat) (gs : List (List Event)) :
    (samples (interleave schedule gs)).Perm (samples gs.flatten) :=
  (interleave_perm schedule gs).filterMap _

theorem fetches_interleave_perm (schedule : List Nat) (gs : List (List Event)) :
    (fetches (interleave schedule gs)).Perm (fetches gs.flatten) :=
  (interleave_perm schedule gs).filterMap _

theorem samples_append (xs ys : List Event) : samples (xs ++ ys) = samples xs ++ samples ys := by
  simp [samples, List.filterMap_append]

theorem fetches_append (xs ys : List Event) : fetches (xs ++ ys) = fetches xs ++ fetches ys := by
  simp [fetches, List.filterMap_append]

theorem samples_traceOf_length (c : Collector) (call : Nat) (address : GoString) :
    (samples (traceOf c call address)).length
      = 14 * (if (c.client.FetchStatus call address).2 = none then 1 else 0)
        + (if (c.client.FetchStatus call address).2 = none then 0 else 1) := by
  rcases FetchStatus_cases c.client call address with ⟨err, h⟩ | ⟨st, h⟩
  · simp [traceOf, h, traceDown, samples]
  · simp [traceOf, h, traceUp, samples]

theorem fetches_traceOf (c : Collector) (call : Nat) (address : GoString) :
    fetches (traceOf c call address) = [address] := by
  rcases FetchStatus_cases c.client call address with ⟨err, h⟩ | ⟨st, h⟩
  · simp [traceOf, h, traceDown, fetches]
  · simp [traceOf, h, traceUp, fetches]

theorem samples_tracesOf_length (c : Collector) : ∀ (ts : List GoString) (call : Nat),
    (samples (tracesOf c call ts).flatten).length
      = 14 * successCount c.client call ts + 1 * failureCount c.client call ts
  | [], _ => by simp [tracesOf, samples, successCount, failureCount]
  | t :: ts, call => by
    simp only [tracesOf, List.flatten_cons, samples_append, List.length_append,
      samples_traceOf_length, samples_tracesOf_length c ts (call + 1), successCount, failureCount]
    ring

theorem fetches_tracesOf (c : Collector) : ∀ (ts : List GoString) (call : Nat),
    fetches (tracesOf c call ts).flatten = ts
  | [], _ => by simp [tracesOf, fetches]
  | t :: ts, call => by
    simp only [tracesOf, List.flatten_cons, fetches_append, fetches_traceOf,
      fetches_tracesOf c ts (call + 1)]
    rfl

theorem successCount_add_failureCount (client : Client) : ∀ (ts : List GoString) (call : Nat),
    successCount client call ts + failureCount client call ts = ts.length
  | [], _ => rfl
  | t :: ts, call => by
    have ih := successCount_add_failureCount client ts (call + 1)
    simp only [successCount, failureCount, List.length_cons]
    split <;> omega

end collector

namespace tasmota
open Go

/-- C4: RelayState returns 1 exactly when the runtime flag StatusSTS.Power is "ON"
or the identity flag Status.Power is "1", and 0 otherwise; so it is 1 for
runtime "OFF" with identity "1", 1 for runtime "ON" whatever the identity flag,
and 0 for runtime "OFF" with identity "0". -/
theorem RelayState_or_semantics (st : Status) :
    (st.RelayState = 1 ↔ (st.StatusSTS.Power = "ON" ∨ st.Status.Power = "1")) ∧
    (st.RelayState = 0 ↔ ¬ (st.StatusSTS.Power = "ON" ∨ st.Status.Power = "1")) ∧
    (st.StatusSTS.Power = "OFF" → st.Status.Power = "1" → st.RelayState = 1) ∧
    (st.StatusSTS.Power = "ON" → st.RelayState = 1) ∧
    (st.StatusSTS.Power = "OFF" → st.Status.Power = "0" → st.RelayState = 0) := by
  unfold Status.RelayState
  refine ⟨?_, ?_, ?_, ?_, ?_⟩
  · by_cases h : st.StatusSTS.Power = "ON" ∨ st.Status.Power = "1"
    · simp [h]
    · simp [h]
  · by_cases h : st.StatusSTS.Power = "ON" ∨ st.Status.Power = "1"
    · simp [h]
    · simp [h]
  · intro _ h2
    simp [h2]
  · intro h1
    simp [h1]
  · intro h1 h2
    simp [h1, h2]

/-- C4, at the status of TestRelayStateOff and at its variants: runtime "OFF" and
identity "0" give 0, runtime "OFF" and identity "1" give 1. -/
theorem RelayState_or_semantics_witness :
    ({ kitchenStatus with
        Status := { DeviceName := "", FriendlyName := [], Power := "0" }
        StatusSTS := { kitchenStatus.StatusSTS with Power := "OFF" } } : Status).RelayState = 0 ∧
    ({ kitchenStatus with
        StatusSTS := { kitchenStatus.StatusSTS with Power := "OFF" } } : Status).RelayState = 1 :=
  ⟨(RelayState_or_semantics _).2.2.2.2 rfl rfl, (RelayState_or_semantics _).2.2.1 rfl rfl⟩

/-- C5, as the code has it: when the friendly-name list starts with a non-empty
entry, DeviceName returns that entry, which is the first non-empty entry of the
list; when it starts with the empty string, DeviceName returns the internal
device name, whatever the later entries are. -/
theorem DeviceName_first_entry (st : Status) :
    (∀ first rest, st.Status.FriendlyName = first :: rest → first ≠ "" →
      st.DeviceName = first ∧ specFirstNonEmpty st.Status.FriendlyName = some first) ∧
    (∀ rest, st.Status.FriendlyName = "" :: rest → st.DeviceName = st.Status.DeviceName) := by
  constructor
  · intro first rest h hne
    simp [Status.DeviceName, specFirstNonEmpty, h, hne]
  · intro rest h
    simp [Status.DeviceName, h]

/-- C5, as the code has it, at the status of TestFetchStatus and at a list
whose first entry is empty. -/
theorem DeviceName_first_entry_witness :
    ({ kitchenStatus with
        Status := { DeviceName := "Tasmota", FriendlyName := ["Living Room Plug"], Power := "1" } }
      : Status).DeviceName = "Living Room Plug" ∧
    kitchenStatus.DeviceName = "Tasmota" :=
  ⟨((DeviceName_first_entry _).1 "Living Room Plug" [] rfl (by decide)).1,
    (DeviceName_first_entry kitchenStatus).2 ["Kitchen"] rfl⟩

/-- C5 as stated fails: for FriendlyName = ["", "Kitchen"] the first non-empty
entry is "Kitchen", but DeviceName returns the internal name "Tasmota". -/
theorem DeviceName_not_first_nonempty :
    specFirstNonEmpty kitchenStatus.Status.FriendlyName = some "Kitchen" ∧
    kitchenStatus.DeviceName = "Tasmota" ∧
    kitchenStatus.DeviceName ≠ "Kitchen" := by
  refine ⟨by decide, by decide, by decide⟩

/-- C6: when the friendly-name list is absent or empty, or holds only empty
strings, DeviceName returns the internal device name Status.DeviceName. -/
theorem DeviceName_fallback (st : Status)
    (h : ∀ name ∈ st.Status.FriendlyName, name = "") :
    st.DeviceName = st.Status.DeviceName := by
  unfold Status.DeviceName
  split
  · rename_i first rest heq
    have hfirst : first = "" := h first (by simp [heq])
    simp [hfirst]
  · rfl

/-- C6, at the status of TestDeviceNameFallback (FriendlyName = [""]) and at an
absent list. -/
theorem DeviceName_fallback_witness :
    ({ kitchenStatus with
        Status := { DeviceName := "Tasmota", FriendlyName := [""], Power := "" } }
      : Status).DeviceName = "Tasmota" ∧
    ({ kitchenStatus with
        Status := { DeviceName := "Tasmota", FriendlyName := [], Power := "" } }
      : Status).DeviceName = "Tasmota" :=
  ⟨DeviceName_fallback _ (by decide), DeviceName_fallback _ (by decide)⟩

/-- C8: when the response has a status code outside 200-299, whatever its body,
FetchStatus returns a nil status together with the error "unexpected status
code"; and whenever FetchStatus returns a status, the error is nil. -/
theorem FetchStatus_non_2xx (c : Client) (call : Nat) (address : GoString)
    (req : Request) (resp : Response)
    (hreq : c.NewRequestWithContext "GET" (statusURL address) = .ok req)
    (hresp : c.Do call req = .ok resp)
    (hcode : resp.StatusCode < 200 ∨ 299 < resp.StatusCode) :
    c.FetchStatus call address
        = (none, some ("unexpected status code: " ++ toString resp.StatusCode)) ∧
      ∀ (c' : Client) (call' : Nat) (address' : GoString) (st : Status),
        (c'.FetchStatus call' address').1 = some st → (c'.FetchStatus call' address').2 = none := by
  constructor
  · have hne : resp.StatusCode ≠ 200 := by omega
    simp [Client.FetchStatus, hreq, hresp, hne]
  · intro c' call' address' st h
    rcases FetchStatus_cases c' call' address' with ⟨err, h'⟩ | ⟨st', h'⟩
    · rw [h'] at h
      cases h
    · rw [h']

end tasmota

namespace collector
open Go tasmota prometheus

/-- C8, at a server that answers 500 as in TestFetchStatusError: FetchStatus
returns no status and an error. -/
theorem FetchStatus_non_2xx_witness :
    (500 < 200 ∨ 299 < (500 : Int)) ∧
    (fixtureClient 500).FetchStatus 0 (utf8 "127.0.0.1:8080")
      = (none, some "unexpected status code: 500") :=
  ⟨by decide,
    (FetchStatus_non_2xx (fixtureClient 500) 0 (utf8 "127.0.0.1:8080")
      { Method := "GET", URL := statusURL (utf8 "127.0.0.1:8080") }
      { StatusCode := 500, Body := utf8 "testResponse" } rfl rfl (by decide)).1⟩

theorem float64OfInt_exact (i : Int) (h : i.natAbs < 2 ^ 53) : float64OfInt i = (i : ℚ) := by
  unfold float64OfInt
  exact if_pos h

/-- C2: after a successful fetch with status st, collectTarget sends exactly 14
samples in this order: tasmota_up = 1 labelled with the address only, then,
labelled with the address and st.DeviceName, power_watts, voltage_volts,
current_amps, energy_total_kwh, energy_today_kwh, energy_yesterday_kwh,
power_factor, apparent_power_va, reactive_power_var, relay_state,
uptime_seconds, wifi_rssi_percent and wifi_signal_dbm with the values of the
status, the three integer readings converted with float64(...), which changes
no integer below 2^53; for the fixture of the specification the values are its
numbers, with relay_state = 1. -/
theorem collectTarget_success_samples (client : Client) (targets : List GoString) (timeout : Int)
    (call : Nat) (address : String) (st : Status)
    (h : client.FetchStatus call (utf8 address) = (some st, none)) :
    ∃ trace, (New client targets timeout).collectTarget call (utf8 address) = .ok trace ∧
      (samples trace).map (fun m => (m.desc.fqName, m.desc.variableLabels, m.value, m.labelValues))
        = [ ("tasmota_up", ["address"], 1, [utf8 address])
          , ("tasmota_power_watts", ["address", "device"], st.StatusSNS.Energy.Power,
              [utf8 address, utf8 st.DeviceName])
          , ("tasmota_voltage_volts", ["address", "device"], st.StatusSNS.Energy.Voltage,
              [utf8 address, utf8 st.DeviceName])
          , ("tasmota_current_amps", ["address", "device"], st.StatusSNS.Energy.Current,
              [utf8 address, utf8 st.DeviceName])
          , ("tasmota_energy_total_kwh", ["address", "device"], st.StatusSNS.Energy.Total,
              [utf8 address, utf8 st.DeviceName])
          , ("tasmota_energy_today_kwh", ["address", "device"], st.StatusSNS.Energy.Today,
              [utf8 address, utf8 st.DeviceName])
          , ("tasmota_energy_yesterday_kwh", ["address", "device"], st.StatusSNS.Energy.Yesterday,
              [utf8 address, utf8 st.DeviceName])
          , ("tasmota_power_factor", ["address", "device"], st.StatusSNS.Energy.Factor,
              [utf8 address, utf8 st.DeviceName])
          , ("tasmota_apparent_power_va", ["address", "device"], st.StatusSNS.Energy.ApparentPower,
              [utf8 address, utf8 st.DeviceName])
          , ("tasmota_reactive_power_var", ["address", "device"], st.StatusSNS.Energy.ReactivePower,
              [utf8 address, utf8 st.DeviceName])
          , ("tasmota_relay_state", ["address", "device"], st.RelayState,
              [utf8 address, utf8 st.DeviceName])
          , ("tasmota_uptime_seconds", ["address", "device"], float64OfInt st.StatusSTS.UptimeSec,
              [utf8 address, utf8 st.DeviceName])
          , ("tasmota_wifi_rssi_percent", ["address", "device"],
              float64OfInt st.StatusSTS.Wifi.RSSI, [utf8 address, utf8 st.DeviceName])
          , ("tasmota_wifi_signal_dbm", ["address", "device"],
              float64OfInt st.StatusSTS.Wifi.Signal, [utf8 address, utf8 st.DeviceName]) ] ∧
      (∀ i : Int, i.natAbs < 2 ^ 53 → float64OfInt i = (i : ℚ)) ∧
      (∀ identity time uptime, st = fixture identity time uptime →
        (samples trace).map (fun m => (m.desc.fqName, m.value))
          = [ ("tasmota_up", 1), ("tasmota_power_watts", 50), ("tasmota_voltage_volts", 235)
            , ("tasmota_current_amps", 0.213), ("tasmota_energy_total_kwh", 100.5)
            , ("tasmota_energy_today_kwh", 1.5), ("tasmota_energy_yesterday_kwh", 2.0)
            , ("tasmota_power_factor", 0.91), ("tasmota_apparent_power_va", 55)
            , ("tasmota_reactive_power_var", 15), ("tasmota_relay_state", 1)
            , ("tasmota_uptime_seconds", 3600), ("tasmota_wifi_rssi_percent", 80)
            , ("tasmota_wifi_signal_dbm", -60) ]) := by
  refine ⟨_, collectTarget_up client targets timeout call (utf8 address) st
    (ValidString_utf8 address) h, rfl, float64OfInt_exact, ?_⟩
  intro identity time uptime hst
  subst hst
  have h1 : float64OfInt 3600 = 3600 := by rw [float64OfInt_exact _ (by decide)]; norm_num
  have h2 : float64OfInt 80 = 80 := by rw [float64OfInt_exact _ (by decide)]; norm_num
  have h3 : float64OfInt (-60) = -60 := by rw [float64OfInt_exact _ (by decide)]; norm_num
  have h4 : (fixture identity time uptime).RelayState = 1 := by
    simp [Status.RelayState, fixture]
  simp only [samples, traceUp, List.filterMap_cons, List.filterMap_nil, List.map_cons,
    List.map_nil, h4]
  simp only [fixture, h1, h2, h3]
  rfl

/-- C2, at the server of TestCollector: the 14 samples carry the numbers of the
fixture. -/
theorem collectTarget_success_samples_witness :
    (fixtureClient 200).FetchStatus 0 (utf8 "127.0.0.1:8080")
      = (some (fixture { DeviceName := "Tasmota", FriendlyName := ["Test Plug"], Power := "1" }
          "2026-01-07T17:25:17" "0T01:00:00"), none) ∧
    ∃ trace, (New (fixtureClient 200) [utf8 "127.0.0.1:8080"] 5000000000).collectTarget 0
        (utf8 "127.0.0.1:8080") = .ok trace ∧
      (samples trace).map (fun m => (m.desc.fqName, m.value))
        = [ ("tasmota_up", 1), ("tasmota_power_watts", 50), ("tasmota_voltage_volts", 235)
          , ("tasmota_current_amps", 0.213), ("tasmota_energy_total_kwh", 100.5)
          , ("tasmota_energy_today_kwh", 1.5), ("tasmota_energy_yesterday_kwh", 2.0)
          , ("tasmota_power_factor", 0.91), ("tasmota_apparent_power_va", 55)
          , ("tasmota_reactive_power_var", 15), ("tasmota_relay_state", 1)
          , ("tasmota_uptime_seconds", 3600), ("tasmota_wifi_rssi_percent", 80)
          , ("tasmota_wifi_signal_dbm", -60) ] := by
  refine ⟨rfl, ?_⟩
  obtain ⟨trace, h1, _, _, h3⟩ := collectTarget_success_samples (fixtureClient 200)
    [utf8 "127.0.0.1:8080"] 5000000000 0 "127.0.0.1:8080" _ rfl
  exact ⟨trace, h1, h3 _ _ _ rfl⟩

theorem FetchStatus_of_failure (client : Client) (call : Nat) (address : GoString)
    (h : (∃ e, client.NewRequestWithContext "GET" (statusURL address) = .error e) ∨
      (∃ req e, client.NewRequestWithContext "GET" (statusURL address) = .ok req ∧
        client.Do call req = .error e) ∨
      (∃ req resp, client.NewRequestWithContext "GET" (statusURL address) = .ok req ∧
        client.Do call req = .ok resp ∧ resp.StatusCode ≠ 200) ∨
      (∃ req resp e, client.NewRequestWithContext "GET" (statusURL address) = .ok req ∧
        client.Do call req = .ok resp ∧ resp.StatusCode = 200 ∧
        client.Decode resp.Body = .error e)) :
    ∃ err, client.FetchStatus call address = (none, some err) := by
  rcases h with ⟨e, h1⟩ | ⟨req, e, h1, h2⟩ | ⟨req, resp, h1, h2, h3⟩ | ⟨req, resp, e, h1, h2, h3, h4⟩
  · exact ⟨"creating request: " ++ e, by simp [Client.FetchStatus, h1]⟩
  · exact ⟨"fetching status: " ++ e, by simp [Client.FetchStatus, h1, h2]⟩
  · exact ⟨"unexpected status code: " ++ toString resp.StatusCode,
      by simp [Client.FetchStatus, h1, h2, h3]⟩
  · exact ⟨"decoding response: " ++ e, by simp [Client.FetchStatus, h1, h2, h3, h4]⟩

/-- C3, as the code has it: for an address that is valid UTF-8, when the fetch
fails, by an error building the request, a transport error or timeout, a status
code other than 200, or a body that does not decode, FetchStatus returns an
error and collectTarget logs it and sends exactly one sample, tasmota_up = 0
with the single label address, and none of the other metrics; collectTarget
ends normally, and Collect returns without an error when all its targets are
valid UTF-8. -/
theorem collectTarget_failure_only_up (client : Client) (targets : List GoString) (timeout : Int)
    (call : Nat) (address : GoString)
    (hvalid : ValidString address = true)
    (h : (∃ e, client.NewRequestWithContext "GET" (statusURL address) = .error e) ∨
      (∃ req e, client.NewRequestWithContext "GET" (statusURL address) = .ok req ∧
        client.Do call req = .error e) ∨
      (∃ req resp, client.NewRequestWithContext "GET" (statusURL address) = .ok req ∧
        client.Do call req = .ok resp ∧ resp.StatusCode ≠ 200) ∨
      (∃ req resp e, client.NewRequestWithContext "GET" (statusURL address) = .ok req ∧
        client.Do call req = .ok resp ∧ resp.StatusCode = 200 ∧
        client.Decode resp.Body = .error e)) :
    ∃ err trace, client.FetchStatus call address = (none, some err) ∧
      (New client targets timeout).collectTarget call address = .ok trace ∧
      trace = [ .fetch address
              , .log (utf8 "Error fetching status from " ++ address ++ utf8 (": " ++ err))
              , .metric
                  { desc :=
                      { fqName := "tasmota_up"
                        help := "Whether the Tasmota device is reachable"
                        variableLabels := ["address"] }
                    valueType := .GaugeValue
                    value := 0
                    labelValues := [address] } ] ∧
      (samples trace).map (fun m => (m.desc.fqName, m.desc.variableLabels, m.value, m.labelValues))
        = [("tasmota_up", ["address"], 0, [address])] ∧
      ((∀ a ∈ targets, ValidString a = true) →
        ∀ schedule, ∃ cycle, (New client targets timeout).Collect schedule = .ok cycle) := by
  obtain ⟨err, herr⟩ := FetchStatus_of_failure client call address h
  exact ⟨err, _, herr, collectTarget_down client targets timeout call address err hvalid herr,
    rfl, rfl, fun hall schedule => ⟨_, Collect_eq client targets timeout schedule hall⟩⟩

/-- C3, as the code has it, at the unreachable target of TestCollectorTargetDown. -/
theorem collectTarget_failure_only_up_witness :
    ValidString (utf8 "127.0.0.1:1") = true ∧
    ∃ trace, (New downClient [utf8 "127.0.0.1:1"] 1000000000).collectTarget 0
        (utf8 "127.0.0.1:1") = .ok trace ∧
      (samples trace).map (fun m => (m.desc.fqName, m.desc.variableLabels, m.value, m.labelValues))
        = [("tasmota_up", ["address"], 0, [utf8 "127.0.0.1:1"])] := by
  refine ⟨by decide, ?_⟩
  obtain ⟨_, trace, _, h2, _, h4, _⟩ := collectTarget_failure_only_up downClient
    [utf8 "127.0.0.1:1"] 1000000000 0 (utf8 "127.0.0.1:1") (by decide)
    (Or.inr (Or.inl ⟨{ Method := "GET", URL := statusURL (utf8 "127.0.0.1:1") }, _, rfl, rfl⟩))
  exact ⟨trace, h2, h4⟩

/-- C3 as stated fails: the address that is the single byte FF is not valid
UTF-8; its fetch fails with a transport error, and collectTarget then panics in
MustNewConstMetric instead of sending tasmota_up = 0. -/
theorem collectTarget_panics_on_invalid_address :
    ValidString [0xFF] = false ∧
    downClient.FetchStatus 0 [0xFF]
      = (none, some "fetching status: dial tcp 127.0.0.1:1: connect: connection refused") ∧
    (New downClient [[0xFF]] 1000000000).collectTarget 0 [0xFF]
      = .error "label value is not valid UTF-8" ∧
    ¬ ∃ trace, (New downClient [[0xFF]] 1000000000).collectTarget 0 [0xFF] = .ok trace := by
  refine ⟨by decide, rfl, rfl, ?_⟩
  rintro ⟨trace, h⟩
  have h' : (New downClient [[0xFF]] 1000000000).collectTarget 0 [0xFF]
      = .error "label value is not valid UTF-8" := rfl
  rw [h'] at h
  cases h

/-- C1, as the code has it: for every client (every assignment of fetch
outcomes), every target list whose addresses are valid UTF-8 and every
schedule, Collect returns without an error after calling FetchStatus once for
each of the N targets, and the number of samples is 14 * s + 1 * f, where s
targets were fetched with success and f with a failure, s + f = N. -/
theorem Collect_sample_count (client : Client) (targets : List GoString) (timeout : Int)
    (schedule : List Nat) (hvalid : ∀ a ∈ targets, ValidString a = true) :
    ∃ trace, (New client targets timeout).Collect schedule = .ok trace ∧
      (fetches trace).Perm targets ∧
      successCount client 0 targets + failureCount client 0 targets = targets.length ∧
      (samples trace).length
        = 14 * successCount client 0 targets + 1 * failureCount client 0 targets := by
  refine ⟨_, Collect_eq client targets timeout schedule hvalid, ?_,
    successCount_add_failureCount client targets 0, ?_⟩
  · have hp := fetches_interleave_perm schedule (tracesOf (New client targets timeout) 0 targets)
    rw [fetches_tracesOf] at hp
    exact hp
  · rw [(samples_interleave_perm schedule _).length_eq]
    exact samples_tracesOf_length (New client targets timeout) targets 0

/-- C1, as the code has it, at two targets of which the first answers and the
second is unreachable: the cycle sends 14 + 1 samples. -/
theorem Collect_sample_count_witness :
    (∀ a ∈ [utf8 "127.0.0.1:8080", utf8 "127.0.0.1:1"], ValidString a = true) ∧
    ∃ trace, (New mixedClient [utf8 "127.0.0.1:8080", utf8 "127.0.0.1:1"] 5000000000).Collect
        [1, 0, 0, 1] = .ok trace ∧
      (samples trace).length = 15 := by
  refine ⟨by decide, ?_⟩
  obtain ⟨trace, h1, _, _, h4⟩ := Collect_sample_count mixedClient
    [utf8 "127.0.0.1:8080", utf8 "127.0.0.1:1"] 5000000000 [1, 0, 0, 1] (by decide)
  exact ⟨trace, h1, h4⟩

/-- C1 as stated fails: getTargets passes on a target that is the single byte
FF, which is not valid UTF-8; the fetch fails and Collect panics in
MustNewConstMetric instead of returning with one sample. -/
theorem Collect_panics_on_invalid_target :
    main.getTargets [0xFF] = [[0xFF]] ∧
    ValidString [0xFF] = false ∧
    (New downClient (main.getTargets [0xFF]) 1000000000).Collect []
      = .error "label value is not valid UTF-8" ∧
    ¬ ∃ trace, (New downClient (main.getTargets [0xFF]) 1000000000).Collect [] = .ok trace := by
  refine ⟨by decide, by decide, rfl, ?_⟩
  rintro ⟨trace, h⟩
  have h' : (New downClient (main.getTargets [0xFF]) 1000000000).Collect []
      = .error "label value is not valid UTF-8" := rfl
  rw [h'] at h
  cases h

end collector

namespace collector
open Go tasmota prometheus

theorem Describe_New (client : Client) (targets : List GoString) (timeout : Int) :
    (New client targets timeout).Describe = (New downClient [] 0).Describe := rfl

theorem descriptors_Describe_nodup : (descriptors (New downClient [] 0).Describe).Nodup := by
  decide

theorem samples_traceUp_desc (client : Client) (targets : List GoString) (timeout : Int)
    (address : GoString) (st : Status) :
    (samples (traceUp (New client targets timeout) address st)).map (fun m => m.desc)
      = descriptors (New downClient [] 0).Describe := rfl

theorem samples_traceDown_desc (client : Client) (targets : List GoString) (timeout : Int)
    (address : GoString) (err : String) :
    (samples (traceDown (New client targets timeout) address err)).map (fun m => m.desc)
      = [(New downClient [] 0).up] := rfl

theorem mem_samples_tracesOf (c : Collector) : ∀ (ts : List GoString) (call : Nat) (m : Metric),
    m ∈ samples (tracesOf c call ts).flatten →
      ∃ call' a, a ∈ ts ∧ m ∈ samples (traceOf c call' a)
  | [], _, m, h => by simp [tracesOf, samples] at h
  | t :: ts, call, m, h => by
    simp only [tracesOf, List.flatten_cons, samples_append, List.mem_append] at h
    rcases h with h | h
    · exact ⟨call, t, List.mem_cons_self _ _, h⟩
    · obtain ⟨call', a, ha, hm⟩ := mem_samples_tracesOf c ts (call + 1) m h
      exact ⟨call', a, List.mem_cons_of_mem _ ha, hm⟩

theorem kind_traceOf (client : Client) (targets : List GoString) (timeout : Int)
    (call : Nat) (address : GoString) (m : Metric)
    (hm : m ∈ samples (traceOf (New client targets timeout) call address)) :
    specRegistryKind m.desc.fqName = some m.valueType := by
  have hc : (New client targets timeout).client = client := rfl
  rcases FetchStatus_cases client call address with ⟨err, h⟩ | ⟨st, h⟩
  · simp only [traceOf, hc, h] at hm
    simp [samples, traceDown] at hm
    subst hm
    rfl
  · simp only [traceOf, hc, h] at hm
    simp [samples, traceUp] at hm
    rcases hm with h | h | h | h | h | h | h | h | h | h | h | h | h | h <;> subst h <;> rfl

theorem specRegistryKind_cases (name : String) (kind : ValueType)
    (h : specRegistryKind name = some kind) :
    (name = "tasmota_energy_total_kwh" → kind = .CounterValue) ∧
      (name ≠ "tasmota_energy_total_kwh" → kind = .GaugeValue) := by
  unfold specRegistryKind at h
  constructor
  · intro hn
    rw [if_pos hn] at h
    exact (Option.some.inj h).symm
  · intro hn
    rw [if_neg hn] at h
    split at h
    · exact (Option.some.inj h).symm
    · cases h

/-- C7: every sample of a Collect cycle, for every client, target list and
schedule, has the kind the registry table gives to its metric: the
energy_total_kwh samples are counters, all other samples are gauges. -/
theorem Collect_sample_kinds (client : Client) (targets : List String) (timeout : Int)
    (schedule : List Nat) :
    ∃ trace, (New client (targets.map utf8) timeout).Collect schedule = .ok trace ∧
      ∀ m ∈ samples trace,
        specRegistryKind m.desc.fqName = some m.valueType ∧
        (m.desc.fqName = "tasmota_energy_total_kwh" → m.valueType = .CounterValue) ∧
        (m.desc.fqName ≠ "tasmota_energy_total_kwh" → m.valueType = .GaugeValue) := by
  refine ⟨_, Collect_eq client (targets.map utf8) timeout schedule (allValid_map_utf8 targets), ?_⟩
  intro m hm
  have hm' := (samples_interleave_perm schedule _).mem_iff.1 hm
  obtain ⟨call, a, _, hma⟩ := mem_samples_tracesOf _ (targets.map utf8) 0 m hm'
  have hk := kind_traceOf client (targets.map utf8) timeout call a m hma
  exact ⟨hk, specRegistryKind_cases _ _ hk⟩

/-- C9: for every collector, whatever its client and targets, Describe sends
exactly 14 descriptors and calls no fetch; the descriptors are pairwise
distinct, do not depend on the client or the targets, and are the descriptors
of the 14 samples that collectTarget sends after a successful fetch, in the
same order. -/
theorem Describe_fourteen_descriptors (client : Client) (targets : List GoString)
    (timeout : Int) :
    (New client targets timeout).Describe.length = 14 ∧
    (descriptors (New client targets timeout).Describe).length = 14 ∧
    fetches (New client targets timeout).Describe = [] ∧
    (descriptors (New client targets timeout).Describe).Nodup ∧
    (∀ client' targets' timeout',
      (New client' targets' timeout').Describe = (New client targets timeout).Describe) ∧
    (∀ call (address : String) st, client.FetchStatus call (utf8 address) = (some st, none) →
      ∃ trace, (New client targets timeout).collectTarget call (utf8 address) = .ok trace ∧
        (samples trace).map (fun m => m.desc)
          = descriptors (New client targets timeout).Describe) := by
  refine ⟨rfl, rfl, rfl, ?_, fun _ _ _ => rfl, ?_⟩
  · rw [Describe_New]
    exact descriptors_Describe_nodup
  · intro call address st h
    refine ⟨_, collectTarget_up client targets timeout call (utf8 address) st
      (ValidString_utf8 address) h, ?_⟩
    rw [samples_traceUp_desc]
    rfl

/-- C9, at the collector of TestCollectorDescribe and the server of
TestCollector: the descriptors of the samples are those of Describe. -/
theorem Describe_fourteen_descriptors_witness :
    (descriptors (New (fixtureClient 200) [utf8 "127.0.0.1:9999"] 5000000000).Describe).length
      = 14 ∧
    ∃ trace, (New (fixtureClient 200) [utf8 "127.0.0.1:9999"] 5000000000).collectTarget 0
        (utf8 "127.0.0.1:9999") = .ok trace ∧
      (samples trace).map (fun m => m.desc)
        = descriptors (New (fixtureClient 200) [utf8 "127.0.0.1:9999"] 5000000000).Describe :=
  ⟨(Describe_fourteen_descriptors (fixtureClient 200) [utf8 "127.0.0.1:9999"] 5000000000).2.1,
    (Describe_fourteen_descriptors (fixtureClient 200) [utf8 "127.0.0.1:9999"]
      5000000000).2.2.2.2.2 0 "127.0.0.1:9999" _ rfl⟩

theorem keys_append (xs ys : List Event) :
    (samples (xs ++ ys)).map seriesKey
      = (samples xs).map seriesKey ++ (samples ys).map seriesKey := by
  rw [samples_append, List.map_append]

theorem head_label_traceOf (c : Collector) (call : Nat) (address : GoString) (m : Metric)
    (hm : m ∈ samples (traceOf c call address)) : m.labelValues.head? = some address := by
  rcases FetchStatus_cases c.client call address with ⟨err, h⟩ | ⟨st, h⟩
  · simp only [traceOf, h] at hm
    simp [samples, traceDown] at hm
    subst hm
    rfl
  · simp only [traceOf, h] at hm
    simp [samples, traceUp] at hm
    rcases hm with h | h | h | h | h | h | h | h | h | h | h | h | h | h <;> subst h <;> rfl

theorem keys_traceOf_nodup (client : Client) (targets : List GoString) (timeout : Int)
    (call : Nat) (address : GoString) :
    ((samples (traceOf (New client targets timeout) call address)).map seriesKey).Nodup := by
  have hc : (New client targets timeout).client = client := rfl
  apply List.Nodup.of_map Prod.fst
  rw [List.map_map]
  rcases FetchStatus_cases client call address with ⟨err, h⟩ | ⟨st, h⟩
  · simp only [traceOf, hc, h]
    exact List.nodup_singleton _
  · simp only [traceOf, hc, h]
    exact descriptors_Describe_nodup

theorem up_keys_traceOf (client : Client) (targets : List GoString) (timeout : Int)
    (call : Nat) (address : GoString) :
    ((samples (traceOf (New client targets timeout) call address)).map seriesKey).filter
        (fun k => k.1 = (New downClient [] 0).up)
      = [((New downClient [] 0).up, [address])] := by
  have hc : (New client targets timeout).client = client := rfl
  rcases FetchStatus_cases client call address with ⟨err, h⟩ | ⟨st, h⟩
  · simp only [traceOf, hc, h]
    rfl
  · simp only [traceOf, hc, h]
    rfl

theorem up_keys_tracesOf (client : Client) (targets : List GoString) (timeout : Int) :
    ∀ (ts : List GoString) (call : Nat),
      ((samples (tracesOf (New client targets timeout) call ts).flatten).map seriesKey).filter
          (fun k => k.1 = (New downClient [] 0).up)
        = ts.map (fun a => ((New downClient [] 0).up, [a]))
  | [], _ => rfl
  | t :: ts, call => by
    simp only [tracesOf, List.flatten_cons, keys_append, List.filter_append, up_keys_traceOf,
      up_keys_tracesOf client targets timeout ts (call + 1), List.map_cons]
    rfl

theorem keys_tracesOf_nodup (client : Client) (targets : List GoString) (timeout : Int) :
    ∀ (ts : List GoString) (call : Nat), ts.Nodup →
      ((samples (tracesOf (New client targets timeout) call ts).flatten).map seriesKey).Nodup
  | [], _, _ => by simp [tracesOf, samples]
  | t :: ts, call, hnd => by
    rw [List.nodup_cons] at hnd
    simp only [tracesOf, List.flatten_cons, keys_append]
    rw [List.nodup_append]
    refine ⟨keys_traceOf_nodup client targets timeout call t,
      keys_tracesOf_nodup client targets timeout ts (call + 1) hnd.2, ?_⟩
    intro k hk1 hk2
    obtain ⟨m1, hm1, rfl⟩ := List.mem_map.1 hk1
    obtain ⟨m2, hm2, heq⟩ := List.mem_map.1 hk2
    obtain ⟨call', a, ha, hm2'⟩ := mem_samples_tracesOf _ ts (call + 1) m2 hm2
    have h1 := head_label_traceOf _ call t m1 hm1
    have h2 := head_label_traceOf _ call' a m2 hm2'
    have hl : m2.labelValues = m1.labelValues := congrArg Prod.snd heq
    rw [hl, h1] at h2
    exact hnd.1 (Option.some.inj h2 ▸ ha)

theorem keys_interleave_perm (schedule : List Nat) (gs : List (List Event)) :
    ((samples (interleave schedule gs)).map seriesKey).Perm ((samples gs.flatten).map seriesKey) :=
  (samples_interleave_perm schedule gs).map _

/-- C10: in a Collect cycle over pairwise distinct addresses, for every client
and schedule, no two samples have the same descriptor and the same label
values; when an address occurs more than once in the target list, two samples
of the cycle have identical descriptor and labels: the tasmota_up samples of
the cycle carry the addresses of the target list, each as often as it occurs;
getTargets keeps a repeated address of TASMOTA_TARGETS. -/
theorem Collect_series_distinct (client : Client) (targets : List String) (timeout : Int)
    (schedule : List Nat) :
    ∃ trace, (New client (targets.map utf8) timeout).Collect schedule = .ok trace ∧
      (targets.Nodup → ((samples trace).map seriesKey).Nodup) ∧
      (¬ targets.Nodup → ¬ ((samples trace).map seriesKey).Nodup) ∧
      (((samples trace).map seriesKey).filter
          (fun k => k.1 = (New client (targets.map utf8) timeout).up)).Perm
        (targets.map fun a => ((New client (targets.map utf8) timeout).up, [utf8 a])) ∧
      main.getTargets (utf8 "plug1,plug2, plug1") = [utf8 "plug1", utf8 "plug2", utf8 "plug1"] := by
  have hp := keys_interleave_perm schedule
    (tracesOf (New client (targets.map utf8) timeout) 0 (targets.map utf8))
  have hup := up_keys_tracesOf client (targets.map utf8) timeout (targets.map utf8) 0
  rw [List.map_map] at hup
  refine ⟨_, Collect_eq client (targets.map utf8) timeout schedule (allValid_map_utf8 targets),
    ?_, ?_, ?_, by decide⟩
  · intro hnd
    exact hp.nodup_iff.2 (keys_tracesOf_nodup client (targets.map utf8) timeout
      (targets.map utf8) 0 (hnd.map utf8_injective))
  · intro hdup hnd
    have h1 := (hp.nodup_iff.1 hnd).filter (fun k => k.1 = (New downClient [] 0).up)
    rw [hup] at h1
    exact hdup (List.Nodup.of_map _ h1)
  · have h1 := hp.filter (fun k => k.1 = (New downClient [] 0).up)
    rw [hup] at h1
    exact h1

/-- C10, at a target list that names one unreachable address twice: the cycle
sends two tasmota_up samples with that address. -/
theorem Collect_series_distinct_witness :
    ∃ trace, (New downClient (["plug1", "plug1"].map utf8) 1000000000).Collect [1, 0]
        = .ok trace ∧
      ¬ ((samples trace).map seriesKey).Nodup := by
  obtain ⟨trace, h1, _, h3, _⟩ := Collect_series_distinct downClient ["plug1", "plug1"]
    1000000000 [1, 0]
  exact ⟨trace, h1, h3 (by decide)⟩

end collector
